import Mathlib

/-!
Verification development for the MyRover GTA BigCommerce shipping-provider app
(`src/index.js`).  The repository ships two near-duplicate variants of the same
Express application in one file: variant A (lines 1-238, with the in-memory
`storeTokens` Map) and variant B (lines 239-449, without a token store).  Both
variants are embedded below; handlers are modelled as pure functions from the
request data (and, where relevant, the credential-store state and the responses
of the outbound `fetch` calls) to an HTTP response, explicit state, and a log.
-/

set_option autoImplicit false

namespace MyRover

/-- JSON values, as produced by `express.json()` / `JSON.parse`. Numbers are
modelled as rationals (no numeric computation happens in this app; all costs
are literal constants). -/
inductive Json where
  | null
  | bool (b : Bool)
  | num (q : ℚ)
  | str (s : String)
  | arr (elems : List Json)
  | obj (fields : List (String × Json))

/-- JS property access `obj.k` on a parsed JSON value: `none` models
`undefined` (missing key, or access on a non-object). -/
def jsField (j : Json) (k : String) : Option Json :=
  match j with
  | .obj fields => (fields.find? (fun p => p.1 == k)).map (fun p => p.2)
  | _ => none

/-- JS truthiness of an optional string (`undefined` and `""` are falsy). -/
def truthy : Option String → Bool
  | none => false
  | some s => s != ""

/-- JS string coercion inside a template literal: `undefined` prints as
"undefined". -/
def jsTemplate : Option String → String
  | none => "undefined"
  | some s => s

/-- JS truthiness of an arbitrary JS value (possibly `undefined`). -/
def jsValTruthy : Option Json → Bool
  | none => false
  | some .null => false
  | some (.bool b) => b
  | some (.num q) => q != 0
  | some (.str s) => s != ""
  | some (.arr _) => true
  | some (.obj _) => true

/-- The `storeTokens` Map of variant A: insertion-ordered association list from
store hash to the stored `data.access_token` value (which is `undefined` when
the exchange response carries no `access_token` field, hence `Option Json`). -/
abbrev Store := List (String × Option Json)

/-- `Map.prototype.get`. -/
def mapGet (store : Store) (k : String) : Option (Option Json) :=
  (store.find? (fun p => p.1 == k)).map (fun p => p.2)

/-- `Map.prototype.set`: updates the entry in place when the key is present,
otherwise appends (JS Maps preserve insertion order). -/
def mapSet (store : Store) (k : String) (v : Option Json) : Store :=
  if store.any (fun p => p.1 == k) then
    store.map (fun p => if p.1 == k then (k, v) else p)
  else
    store ++ [(k, v)]

/-- `Map.prototype.delete`. -/
def mapDelete (store : Store) (k : String) : Store :=
  store.filter (fun p => p.1 != k)

/-- JS `String.prototype.replace` with a *string* pattern replaces only the
FIRST occurrence of the pattern (an empty pattern matches at position 0). -/
def replaceFirst (pat rep : List Char) : List Char → List Char
  | [] => if pat.isEmpty then rep else []
  | c :: rest =>
    if List.isPrefixOf pat (c :: rest) then
      rep ++ (c :: rest).drop pat.length
    else
      c :: replaceFirst pat rep rest

/-- String wrapper for `replaceFirst`, in JS argument order
(`s.replace(pat, rep)`). -/
def jsReplaceFirst (s pat rep : String) : String :=
  ⟨replaceFirst pat.data rep.data s.data⟩

/-- Whether `pat` occurs as a contiguous substring of the second argument. -/
def containsSub (pat : List Char) : List Char → Bool
  | [] => List.isPrefixOf pat []
  | c :: rest => List.isPrefixOf pat (c :: rest) || containsSub pat rest

/-- Code points JS `String.prototype.trim` strips: ASCII whitespace and line
terminators, NBSP and the BOM (the exotic Unicode space separators are not
producible by this app's inputs and are left out). -/
def jsWhitespaceCodes : List Nat := [9, 10, 11, 12, 13, 32, 160, 65279]

/-- Whether a character is JS whitespace. -/
def jsWhitespace (c : Char) : Bool := jsWhitespaceCodes.contains c.toNat

/-- JS `String.prototype.trim`: drop whitespace from both ends. -/
def jsTrim (s : String) : String :=
  ⟨((s.data.dropWhile jsWhitespace).reverse.dropWhile jsWhitespace).reverse⟩

/-- Characters `encodeURIComponent` leaves unescaped besides letters and
digits: `- _ . ! ~ * ' ( )`. -/
def uriUnreservedExtra : List Char := ['-', '_', '.', '!', '~', '*', Char.ofNat 39, '(', ')']

/-- Unreserved characters of `encodeURIComponent`. -/
def uriUnreserved (c : Char) : Bool :=
  (c.isAlpha || c.isDigit) || uriUnreservedExtra.contains c

/-- Uppercase hexadecimal digit for a value below 16. -/
def hexDigitChar (n : Nat) : Char :=
  if n < 10 then Char.ofNat (48 + n) else Char.ofNat (55 + n)

/-- Percent-escape of one byte. -/
def percentEncodeByte (b : Nat) : List Char :=
  [Char.ofNat 37, hexDigitChar (b / 16), hexDigitChar (b % 16)]

/-- UTF-8 byte sequence of a character, as natural numbers. -/
def utf8Bytes (c : Char) : List Nat :=
  let n := c.toNat
  if n < 128 then [n]
  else if n < 2048 then [192 + n / 64, 128 + n % 64]
  else if n < 65536 then [224 + n / 4096, 128 + n / 64 % 64, 128 + n % 64]
  else [240 + n / 262144, 128 + n / 4096 % 64, 128 + n / 64 % 64, 128 + n % 64]

/-- JS `encodeURIComponent`: unreserved characters pass through, every other
character is percent-escaped byte-by-byte in UTF-8. -/
def encodeURIComponent (s : String) : String :=
  ⟨(s.data.map (fun c =>
      if uriUnreserved c then [c]
      else ((utf8Bytes c).map percentEncodeByte).flatten)).flatten⟩

/-- HTTP responses the handlers produce. `redirect` carries the status Express
uses for `res.redirect` (302) and the `Location` target. -/
inductive HResponse where
  | redirect (status : Nat) (location : String)
  | html (status : Nat) (body : String)
  | json (status : Nat) (body : Json)

/-- Whether a response is a redirect. -/
def isRedirect : HResponse → Bool
  | .redirect _ _ => true
  | _ => false

/-- Process configuration read from the environment (`undefined` when an env
var is absent). -/
structure Config where
  clientId : Option String
  clientSecret : Option String
  appUrl : Option String

/-- Parsed outcome of one outbound `fetch`: the HTTP status, and the result of
`res.json()` (`none` when the body is malformed and parsing throws). -/
structure FetchResponse where
  status : Nat
  bodyParsed : Option Json

/-- `Response.ok` of `fetch`: status in the 2xx range. -/
def fetchOk (status : Nat) : Bool := decide (200 ≤ status ∧ status < 300)

/- ------------------------------------------------------------------ -/
/- Variant A (src/index.js lines 1-238)                                -/
/- ------------------------------------------------------------------ -/

/-- Variant A `/api/install` 500 body. -/
def configErrorPage : String :=
  "Server not configured correctly (CLIENT_ID / APP_URL missing)."

/-- Variant A `/api/install` 400 body. -/
def missingParamsPageA : String := "Missing context or scope from BigCommerce."

/-- Variant A OAuth authorize URL (src/index.js lines 41-45): the client id is
interpolated raw, scope / redirect_uri / context are passed through
`encodeURIComponent`. -/
def authUrlA (clientId appUrl context scope : String) : String :=
  "https://login.bigcommerce.com/oauth2/authorize?client_id=" ++ clientId
    ++ "&scope=" ++ encodeURIComponent scope
    ++ "&redirect_uri=" ++ encodeURIComponent (appUrl ++ "/api/auth/callback")
    ++ "&response_type=code&context=" ++ encodeURIComponent context

/-- Variant A `GET /api/install` (src/index.js lines 25-49). -/
def installA (cfg : Config) (context scope : Option String) : HResponse :=
  if !(truthy cfg.clientId) || !(truthy cfg.appUrl) then
    .html 500 configErrorPage
  else if !(truthy context) || !(truthy scope) then
    .html 400 missingParamsPageA
  else
    .redirect 302
      (authUrlA (jsTemplate cfg.clientId) (jsTemplate cfg.appUrl)
        (jsTemplate context) (jsTemplate scope))

/-- Store-hash derivation of variant A (src/index.js line 60):
`context.replace("stores/", "")`. -/
def storeHashA (context : String) : String :=
  jsReplaceFirst context "stores/" ""

/-- Variant A generic catch-all failure body of the OAuth callback. -/
def failPageA : String :=
  "OAuth callback failed. Check server logs for more details."

/-- Variant A callback success HTML (src/index.js lines 91-94). -/
def successPageA : String :=
  "\n      <h2>✅ MyRover GTA Carrier installed successfully</h2>\n      <p>You can close this window and return to your BigCommerce admin.</p>\n    "

/-- Metadata API URL (src/index.js line 160). -/
def metadataUrl (storeHash : String) : String :=
  "https://api.bigcommerce.com/stores/" ++ storeHash ++ "/v3/app/metadata"

/-- Metadata payload (src/index.js lines 161-166). -/
def metadataPayload : Json :=
  .obj [("data", .arr [
    .obj [("key", .str "shipping_connection"), ("value", .str "/v1/shipping/connection")],
    .obj [("key", .str "shipping_rates"), ("value", .str "/v1/shipping/rates")]])]

/-- `registerMetadata` (src/index.js lines 159-193), given the metadata API's
response. The function only logs: a malformed body is caught and warned about,
a non-2xx status is logged and the function returns — nothing ever throws, so
the embedding is a total function returning the log lines. -/
def registerMetadata (storeHash : String) (accessToken : Option Json)
    (resp : FetchResponse) : List String :=
  let intro := ["📨 Registering metadata at: " ++ metadataUrl storeHash]
  let parseLog := match resp.bodyParsed with
    | none => ["⚠️ Could not parse metadata response JSON"]
    | some _ => []
  if !(fetchOk resp.status) then
    intro ++ parseLog ++ ["❌ Metadata registration failed"]
  else
    intro ++ parseLog ++ ["✅ Metadata registered successfully"]

/-- Result of the variant A OAuth callback: the HTTP response, the final
credential-store state, and the console log. -/
structure CallbackResult where
  resp : HResponse
  store : Store
  log : List String

/-- Variant A `GET /api/auth/callback` (src/index.js lines 52-101).
`tokenResp` is the token-exchange response and `metaResp` the metadata API's
response (the two outbound `fetch` calls, supplied as parameters). A thrown
`Error` (missing params, JSON parse failure, non-ok exchange) lands in the
`catch` block, which answers 400 with the generic `failPageA`. The PLAIN
property access `data.access_token` (line 84, no optional chaining) throws a
TypeError when the 2xx exchange body parsed to JSON null — the one parsed
JSON value on which property access throws — so that case too lands in the
catch, before any store write or metadata call; on every other value the
access yields the field, or `undefined`, without throwing. -/
def callbackA (store : Store) (code context scope : Option String)
    (tokenResp : FetchResponse) (metaResp : FetchResponse) : CallbackResult :=
  if !(truthy code) || !(truthy context) then
    { resp := .html 400 failPageA, store := store,
      log := ["❌ OAuth callback error: Missing code or context in OAuth callback."] }
  else
    match tokenResp.bodyParsed with
    | none =>
        { resp := .html 400 failPageA, store := store,
          log := ["❌ OAuth callback error: json parse failure"] }
    | some data =>
        if !(fetchOk tokenResp.status) then
          { resp := .html 400 failPageA, store := store,
            log := ["OAuth token exchange failed:",
                    "❌ OAuth callback error: token exchange failed"] }
        else
          match data with
          | .null =>
              { resp := .html 400 failPageA, store := store,
                log := ["❌ OAuth callback error: TypeError reading access_token of null"] }
          | _ =>
              let storeHash := storeHashA (jsTemplate context)
              let accessToken := jsField data "access_token"
              let store2 := mapSet store storeHash accessToken
              let metaLog := registerMetadata storeHash accessToken metaResp
              { resp := .html 200 successPageA, store := store2,
                log := ["✅ Access token stored for store: " ++ storeHash] ++ metaLog }

/-- Variant A `ALL /v1/shipping/connection` (src/index.js lines 107-120). -/
def connectionHandlerA (method : String) (body : Json) : HResponse :=
  .json 200 (.obj [("data", .obj [("status", .str "OK"),
    ("message", .str "MyRover GTA Carrier connection verified")])])

/-- Variant A `POST /v1/shipping/rates` (src/index.js lines 126-153): the cart
body is logged and otherwise ignored; static rates are returned. -/
def ratesHandlerA (body : Json) : HResponse :=
  .json 200 (.obj [("data", .arr [
    .obj [("carrier_quote", .obj [
      ("code", .str "myrover_same_day_gta"),
      ("display_name", .str "MyRover Same-Day Courier (GTA)"),
      ("cost", .num (19.95 : ℚ))])],
    .obj [("carrier_quote", .obj [
      ("code", .str "myrover_next_day_gta"),
      ("display_name", .str "MyRover Next-Day Courier (GTA)"),
      ("cost", .num (14.95 : ℚ))])]])])

/-- Variant A connection route as a state transformer over the credential
store: the handler body never references `storeTokens`, so the state passes
through untouched. -/
def connectionRouteA (store : Store) (method : String) (body : Json) :
    HResponse × Store :=
  (connectionHandlerA method body, store)

/-- Variant A rates route as a state transformer over the credential store:
the handler body never references `storeTokens`. -/
def ratesRouteA (store : Store) (body : Json) : HResponse × Store :=
  (ratesHandlerA body, store)

/-- Variant A `POST /api/uninstall` (src/index.js lines 216-223): deletes the
entry for `req.body?.store_hash` when that value is truthy, then always
answers 200 `{success:true}`. `Map.delete` with a non-string key is a no-op on
this map because every stored key is a string. -/
def uninstallA (store : Store) (body : Json) : HResponse × Store :=
  let store2 := match jsField body "store_hash" with
    | some (.str s) => if s != "" then mapDelete store s else store
    | _ => store
  (.json 200 (.obj [("success", .bool true)]), store2)

/- ------------------------------------------------------------------ -/
/- Variant B (src/index.js lines 239-449)                              -/
/- ------------------------------------------------------------------ -/

/-- Variant B `/api/install` 400 body. -/
def missingParamsPageB : String := "Missing context or scope"

/-- Variant B OAuth authorize URL (src/index.js lines 272-280): unlike variant
A it also encodes the client id, and orders the parameters
client_id, scope, context, redirect_uri, response_type. -/
def authUrlB (clientId appUrl context scope : String) : String :=
  "https://login.bigcommerce.com/oauth2/authorize?client_id=" ++ encodeURIComponent clientId
    ++ "&scope=" ++ encodeURIComponent scope
    ++ "&context=" ++ encodeURIComponent context
    ++ "&redirect_uri=" ++ encodeURIComponent (appUrl ++ "/api/auth/callback")
    ++ "&response_type=code"

/-- Variant B `GET /api/install` (src/index.js lines 264-284): note there is
NO configuration check — missing env vars are interpolated as the string
"undefined" and the redirect is issued anyway. -/
def installB (cfg : Config) (context scope : Option String) : HResponse :=
  if !(truthy context) || !(truthy scope) then
    .html 400 missingParamsPageB
  else
    .redirect 302
      (authUrlB (jsTemplate cfg.clientId) (jsTemplate cfg.appUrl)
        (jsTemplate context) (jsTemplate scope))

/-- Store-hash derivation of variant B (src/index.js lines 341-343):
`(data?.context || context || "").replace("stores/", "").trim()`, here taking
the already-selected context string. -/
def storeHashB (context : String) : String :=
  jsTrim (jsReplaceFirst context "stores/" "")

/-- Variant B callback 400 body for missing parameters. -/
def missingCallbackPageB : String := "OAuth callback failed: missing code or context"

/-- Variant B callback 500 body for a failed token exchange. -/
def tokenFailPageB : String := "OAuth callback failed: token exchange error"

/-- Variant B callback catch-all 500 body. -/
def serverFailPageB : String := "OAuth callback failed on server."

/-- Variant B callback success HTML (src/index.js lines 349-357). -/
def successPageB (storeHash : String) : String :=
  "\n      <html>\n        <body style=\"font-family: Arial; text-align:center; margin-top:50px;\">\n          <h2>✅ MyRover Carrier App Installed</h2>\n          <p>Store: <strong>"
    ++ (if storeHash != "" then storeHash else "unknown")
    ++ "</strong></p>\n          <p>You can now close this window and return to your BigCommerce admin.</p>\n        </body>\n      </html>\n    "

/-- Variant B `GET /api/auth/callback` (src/index.js lines 290-362). A JSON
parse failure of the exchange response is swallowed into `{}` by
`.catch(() => ({}))`; the effective context is
`data?.context || context || ""`; a truthy non-string `data.context` would
make `.replace` throw, landing in the outer catch (500). Variant B persists
nothing ("For now we just confirm install"). -/
def callbackB (code context scope : Option String)
    (tokenResp : FetchResponse) : HResponse :=
  if !(truthy code) || !(truthy context) then
    .html 400 missingCallbackPageB
  else
    let data := tokenResp.bodyParsed.getD (.obj [])
    if !(fetchOk tokenResp.status) then
      .html 500 tokenFailPageB
    else
      let ctxVal : Option Json :=
        if jsValTruthy (jsField data "context") then jsField data "context"
        else if truthy context then some (.str (jsTemplate context))
        else some (.str "")
      match ctxVal with
      | some (.str s) => .html 200 (successPageB (storeHashB s))
      | _ => .html 500 serverFailPageB

/-- Variant B `POST /api/uninstall` (src/index.js lines 384-388): no store to
touch, always 200 `{success:true}`. -/
def uninstallB (body : Json) : HResponse :=
  .json 200 (.obj [("success", .bool true)])

/-- Variant B `POST /v1/shipping/connection` (src/index.js lines 394-402). -/
def connectionHandlerB (body : Json) : HResponse :=
  .json 200 (.obj [("data", .obj [("status", .str "OK"),
    ("message", .str "MyRover GTA Carrier connection verified")])])

/-- Variant B `POST /v1/shipping/rates` (src/index.js lines 408-434):
`res.json(...)` without an explicit status defaults to 200. -/
def ratesHandlerB (body : Json) : HResponse :=
  .json 200 (.obj [("data", .arr [
    .obj [("carrier_quote", .obj [
      ("code", .str "myrover_same_day_gta"),
      ("display_name", .str "MyRover Same-Day Courier (GTA)"),
      ("cost", .num (19.95 : ℚ))])],
    .obj [("carrier_quote", .obj [
      ("code", .str "myrover_standard_gta"),
      ("display_name", .str "MyRover Next-Day Courier (GTA)"),
      ("cost", .num (12.5 : ℚ))])]])])

/- ------------------------------------------------------------------ -/
/- Helper lemmas                                                       -/
/- ------------------------------------------------------------------ -/

theorem isPrefixOf_append_self (l r : List Char) :
    List.isPrefixOf l (l ++ r) = true := by
  induction l with
  | nil => cases r <;> rfl
  | cons a t ih => simp [List.isPrefixOf, List.cons_append, ih]

theorem replaceFirst_append (pat rep r : List Char) (h : pat ≠ []) :
    replaceFirst pat rep (pat ++ r) = rep ++ r := by
  match pat, h with
  | c :: t, _ =>
    have hp : List.isPrefixOf (c :: t) (c :: (t ++ r)) = true := by
      have := isPrefixOf_append_self (c :: t) r
      rwa [List.cons_append] at this
    rw [List.cons_append]
    simp [replaceFirst, hp, List.drop_left]

theorem replaceFirst_of_not_contains (pat rep : List Char) (hpat : pat ≠ []) :
    ∀ s, containsSub pat s = false → replaceFirst pat rep s = s := by
  intro s
  induction s with
  | nil =>
    intro _
    match pat, hpat with
    | c :: t, _ => simp [replaceFirst]
  | cons a t ih =>
    intro h
    simp only [containsSub, Bool.or_eq_false_iff] at h
    simp [replaceFirst, h.1, ih h.2]

theorem find?_key_cons (k : String) (p : String × Option Json)
    (l : List (String × Option Json)) :
    List.find? (fun q => q.1 == k) (p :: l)
      = if p.1 == k then some p else List.find? (fun q => q.1 == k) l := by
  cases hq : (p.1 == k) <;> simp [List.find?, hq]

theorem mapGet_cons (k : String) (p : String × Option Json)
    (l : List (String × Option Json)) :
    mapGet (p :: l) k = if p.1 == k then some p.2 else mapGet l k := by
  simp only [mapGet, find?_key_cons k p l]
  cases hq : (p.1 == k) <;> simp [hq]

theorem mapGet_map_update (store : Store) (k : String) (v : Option Json)
    (h : store.any (fun p => p.1 == k) = true) :
    mapGet (store.map (fun p => if p.1 == k then (k, v) else p)) k = some v := by
  induction store with
  | nil => simp at h
  | cons p rest ih =>
    by_cases hp : (p.1 == k) = true
    · rw [List.map_cons, if_pos hp, mapGet_cons]
      simp
    · have hp' : (p.1 == k) = false := by simpa using hp
      have h2 : rest.any (fun p => p.1 == k) = true := by
        simpa [List.any_cons, hp'] using h
      rw [List.map_cons, if_neg hp, mapGet_cons, if_neg hp]
      exact ih h2

theorem mapGet_append_single (store : Store) (k : String) (v : Option Json)
    (h : store.any (fun p => p.1 == k) = false) :
    mapGet (store ++ [(k, v)]) k = some v := by
  induction store with
  | nil => simp [mapGet_cons, mapGet]
  | cons p rest ih =>
    simp only [List.any_cons, Bool.or_eq_false_iff] at h
    rw [List.cons_append, mapGet_cons, if_neg (by simp [h.1])]
    exact ih h.2

theorem mapGet_mapSet_self (store : Store) (k : String) (v : Option Json) :
    mapGet (mapSet store k v) k = some v := by
  unfold mapSet
  by_cases h : store.any (fun p => p.1 == k) = true
  · rw [if_pos h]
    exact mapGet_map_update store k v h
  · have h' : store.any (fun p => p.1 == k) = false := by
      cases hq : store.any (fun p => p.1 == k) with
      | false => rfl
      | true => exact absurd hq h
    rw [if_neg h]
    exact mapGet_append_single store k v h'

theorem mapDelete_idem (store : Store) (k : String) :
    mapDelete (mapDelete store k) k = mapDelete store k := by
  induction store with
  | nil => rfl
  | cons p rest ih =>
    simp only [mapDelete] at ih ⊢
    rw [List.filter_cons]
    by_cases hp : (p.1 != k) = true
    · rw [if_pos hp, List.filter_cons, if_pos hp]
      exact congrArg (p :: ·) ih
    · rw [if_neg hp]
      exact ih

theorem mapGet_mapDelete_ne (store : Store) (k h : String) (hne : k ≠ h) :
    mapGet (mapDelete store h) k = mapGet store k := by
  induction store with
  | nil => rfl
  | cons p rest ih =>
    simp only [mapDelete] at ih ⊢
    rw [List.filter_cons]
    by_cases hp : (p.1 != h) = true
    · rw [if_pos hp, mapGet_cons, mapGet_cons]
      by_cases hk : (p.1 == k) = true
      · rw [if_pos hk, if_pos hk]
      · rw [if_neg hk, if_neg hk]
        exact ih
    · have hph : p.1 = h := by
        have hb : (p.1 == h) = true := by
          have : (p.1 != h) = false := by simpa using hp
          simpa [bne] using this
        exact eq_of_beq hb
      have hpk : (p.1 == k) = false := by
        rw [hph]
        exact beq_eq_false_iff_ne.mpr (Ne.symm hne)
      rw [if_neg hp, ih, mapGet_cons, if_neg (by simp [hpk])]

/-- `sub` occurs as a contiguous substring of `s`. -/
def strContains (s sub : String) : Prop :=
  ∃ p q : List Char, s.data = p ++ sub.data ++ q

theorem strContains_self (s : String) : strContains s s :=
  ⟨[], [], by simp⟩

theorem data_append_eq (a b : String) : (a ++ b).data = a.data ++ b.data := rfl

theorem strContains_append_left (a b sub : String) (h : strContains a sub) :
    strContains (a ++ b) sub := by
  obtain ⟨p, q, hp⟩ := h
  exact ⟨p, q ++ b.data, by rw [data_append_eq, hp]; simp⟩

theorem strContains_append_right (a b sub : String) (h : strContains b sub) :
    strContains (a ++ b) sub := by
  obtain ⟨p, q, hp⟩ := h
  exact ⟨a.data ++ p, q, by rw [data_append_eq, hp]; simp⟩

/-- Normal form of the variant A callback on its success path: parameters
present, exchange ok, and the parsed exchange body not JSON null (on null the
property access throws and the catch answers 400 instead). -/
theorem callbackA_success_shape (store : Store) (code context scope : Option String)
    (tokenResp : FetchResponse) (data : Json) (metaResp : FetchResponse)
    (hcode : truthy code = true) (hctx : truthy context = true)
    (hbody : tokenResp.bodyParsed = some data)
    (hok : fetchOk tokenResp.status = true)
    (hnn : data ≠ Json.null) :
    callbackA store code context scope tokenResp metaResp =
      { resp := .html 200 successPageA,
        store := mapSet store (storeHashA (jsTemplate context))
          (jsField data "access_token"),
        log := ["✅ Access token stored for store: " ++ storeHashA (jsTemplate context)]
          ++ registerMetadata (storeHashA (jsTemplate context))
              (jsField data "access_token") metaResp } := by
  cases data <;> first
  | exact absurd rfl hnn
  | simp [callbackA, hcode, hctx, hbody, hok]

/- ------------------------------------------------------------------ -/
/- Claims                                                              -/
/- ------------------------------------------------------------------ -/

/-- C1: for every well-formed JSON request body, POST `/v1/shipping/rates`
returns HTTP 200 with envelope `data: [...]` holding the same fixed
two-element ordered list of carrier quotes (same-day first, then
next-day/standard), each with a fixed code, display name and cost,
independent of the cart payload (shown per variant, with each variant's
constants). -/
theorem rates_fixed_two_quotes (body : Json) :
    ratesHandlerA body = HResponse.json 200 (Json.obj [("data", Json.arr [
      Json.obj [("carrier_quote", Json.obj [
        ("code", Json.str "myrover_same_day_gta"),
        ("display_name", Json.str "MyRover Same-Day Courier (GTA)"),
        ("cost", Json.num (19.95 : ℚ))])],
      Json.obj [("carrier_quote", Json.obj [
        ("code", Json.str "myrover_next_day_gta"),
        ("display_name", Json.str "MyRover Next-Day Courier (GTA)"),
        ("cost", Json.num (14.95 : ℚ))])]])])
    ∧ ratesHandlerB body = HResponse.json 200 (Json.obj [("data", Json.arr [
      Json.obj [("carrier_quote", Json.obj [
        ("code", Json.str "myrover_same_day_gta"),
        ("display_name", Json.str "MyRover Same-Day Courier (GTA)"),
        ("cost", Json.num (19.95 : ℚ))])],
      Json.obj [("carrier_quote", Json.obj [
        ("code", Json.str "myrover_standard_gta"),
        ("display_name", Json.str "MyRover Next-Day Courier (GTA)"),
        ("cost", Json.num (12.5 : ℚ))])]])]) :=
  ⟨rfl, rfl⟩

/-- C2: on a successful token exchange with `access_token = T` and context
`"stores/abc123"`, the variant A callback persists the credential under the
store identifier `"abc123"` (prefix stripped) with token `T`, and returns the
HTML confirmation page. -/
theorem callback_persists_credential (store : Store) (code scope : Option String)
    (T : String) (tokenResp metaResp : FetchResponse) (data : Json)
    (hcode : truthy code = true)
    (hok : fetchOk tokenResp.status = true)
    (hbody : tokenResp.bodyParsed = some data)
    (htok : jsField data "access_token" = some (Json.str T)) :
    mapGet (callbackA store code (some "stores/abc123") scope tokenResp metaResp).store
        "abc123" = some (some (Json.str T))
    ∧ (callbackA store code (some "stores/abc123") scope tokenResp metaResp).resp
        = HResponse.html 200 successPageA := by
  have hctx : truthy (some "stores/abc123") = true := by decide
  have hsh : storeHashA (jsTemplate (some "stores/abc123")) = "abc123" := by decide
  have hnn : data ≠ Json.null := by
    intro h
    rw [h] at htok
    simp [jsField] at htok
  have hs := callbackA_success_shape store code (some "stores/abc123") scope
    tokenResp data metaResp hcode hctx hbody hok hnn
  constructor
  · simp [hs, htok, hsh, mapGet_mapSet_self]
  · simp [hs]

theorem callback_persists_credential_witness :
    mapGet (callbackA [] (some "code") (some "stores/abc123") none
        ⟨200, some (Json.obj [("access_token", Json.str "T")])⟩
        ⟨200, some Json.null⟩).store "abc123" = some (some (Json.str "T"))
    ∧ (callbackA [] (some "code") (some "stores/abc123") none
        ⟨200, some (Json.obj [("access_token", Json.str "T")])⟩
        ⟨200, some Json.null⟩).resp = HResponse.html 200 successPageA :=
  callback_persists_credential [] (some "code") none "T"
    ⟨200, some (Json.obj [("access_token", Json.str "T")])⟩ ⟨200, some Json.null⟩
    (Json.obj [("access_token", Json.str "T")]) rfl rfl rfl rfl

/-- C3 counterexample: the derivation is NOT an exact leading-prefix strip.
The context `"xstores/abc"` does not begin with `"stores/"`, yet
`context.replace("stores/", "")` removes the embedded occurrence and yields
`"xabc"`, not the context unchanged. -/
theorem storeHash_not_prefix_anchored_cex :
    List.isPrefixOf "stores/".data "xstores/abc".data = false
    ∧ storeHashA "xstores/abc" = "xabc"
    ∧ ("xabc" : String) ≠ "xstores/abc" :=
  ⟨by decide, by decide, by decide⟩

/-- C3 amended: the derivation removes the FIRST occurrence of the exact,
case-sensitive substring `"stores/"` anywhere in the context (variant B then
trims surrounding whitespace); a context with no occurrence at all passes
through unchanged (variant B: unchanged up to trimming), and a context
beginning with `"stores/"` loses exactly that leading occurrence. -/
theorem storeHash_first_occurrence (rest ctx : String) :
    storeHashA ("stores/" ++ rest) = rest
    ∧ (containsSub "stores/".data ctx.data = false → storeHashA ctx = ctx)
    ∧ storeHashB ("stores/" ++ rest) = jsTrim rest
    ∧ (containsSub "stores/".data ctx.data = false → storeHashB ctx = jsTrim ctx) := by
  have h1 : storeHashA ("stores/" ++ rest) = rest := by
    show (⟨replaceFirst "stores/".data "".data ("stores/" ++ rest).data⟩ : String) = rest
    rw [data_append_eq]
    rw [replaceFirst_append _ _ _ (by decide)]
    rfl
  have h2 : containsSub "stores/".data ctx.data = false → storeHashA ctx = ctx := by
    intro h
    show (⟨replaceFirst "stores/".data "".data ctx.data⟩ : String) = ctx
    rw [replaceFirst_of_not_contains _ _ (by decide) _ h]
  refine ⟨h1, h2, ?_, ?_⟩
  · show jsTrim (storeHashA ("stores/" ++ rest)) = jsTrim rest
    rw [h1]
  · intro h
    show jsTrim (storeHashA ctx) = jsTrim ctx
    rw [h2 h]

theorem storeHash_first_occurrence_witness :
    storeHashA ("stores/" ++ "abc") = "abc"
    ∧ containsSub "stores/".data ("hello" : String).data = false
    ∧ storeHashA "hello" = "hello" :=
  ⟨(storeHash_first_occurrence "abc" "hello").1, by decide,
    (storeHash_first_occurrence "abc" "hello").2.1 (by decide)⟩

/-- C4: when the token exchange answers with a non-success status, both
variants return a fixed generic failure page (a constant string, so no token,
client secret or upstream error text can appear in it), and variant A's
credential store is unchanged. -/
theorem callback_exchange_failure_generic (store : Store)
    (code context scope : Option String) (tokenResp metaResp : FetchResponse)
    (hcode : truthy code = true) (hctx : truthy context = true)
    (hfail : fetchOk tokenResp.status = false) :
    (callbackA store code context scope tokenResp metaResp).resp
        = HResponse.html 400 "OAuth callback failed. Check server logs for more details."
    ∧ (callbackA store code context scope tokenResp metaResp).store = store
    ∧ callbackB code context scope tokenResp
        = HResponse.html 500 "OAuth callback failed: token exchange error" := by
  refine ⟨?_, ?_, ?_⟩
  · cases hbody : tokenResp.bodyParsed with
    | none => simp [callbackA, hcode, hctx, hbody, failPageA]
    | some data => simp [callbackA, hcode, hctx, hbody, hfail, failPageA]
  · cases hbody : tokenResp.bodyParsed with
    | none => simp [callbackA, hcode, hctx, hbody]
    | some data => simp [callbackA, hcode, hctx, hbody, hfail]
  · simp [callbackB, hcode, hctx, hfail, tokenFailPageB]

theorem callback_exchange_failure_generic_witness :
    (callbackA [] (some "code") (some "stores/abc123") none
        ⟨500, some (Json.obj [("error", Json.str "boom")])⟩ ⟨200, some Json.null⟩).resp
        = HResponse.html 400 "OAuth callback failed. Check server logs for more details."
    ∧ (callbackA [] (some "code") (some "stores/abc123") none
        ⟨500, some (Json.obj [("error", Json.str "boom")])⟩ ⟨200, some Json.null⟩).store = []
    ∧ callbackB (some "code") (some "stores/abc123") none
        ⟨500, some (Json.obj [("error", Json.str "boom")])⟩
        = HResponse.html 500 "OAuth callback failed: token exchange error" :=
  callback_exchange_failure_generic [] (some "code") (some "stores/abc123") none
    ⟨500, some (Json.obj [("error", Json.str "boom")])⟩ ⟨200, some Json.null⟩
    rfl rfl rfl

/-- C5 counterexample: an exchange that is "successful" in the sense the code
checks (2xx status) but whose body parses to JSON null does NOT yield the 200
success response when metadata registration fails: the plain property access
`data.access_token` throws a TypeError and the catch answers 400 with the
generic failure page before metadata registration is ever attempted, and
nothing is stored. -/
theorem callback_null_exchange_body_cex :
    fetchOk 200 = true
    ∧ fetchOk 500 = false
    ∧ (callbackA [] (some "code") (some "stores/abc123") none
        ⟨200, some Json.null⟩ ⟨500, some Json.null⟩).resp
        = HResponse.html 400 "OAuth callback failed. Check server logs for more details."
    ∧ (callbackA [] (some "code") (some "stores/abc123") none
        ⟨200, some Json.null⟩ ⟨500, some Json.null⟩).store = []
    ∧ HResponse.html 400 "OAuth callback failed. Check server logs for more details."
        ≠ HResponse.html 200 successPageA :=
  ⟨by decide, by decide, rfl, rfl, by simp⟩

/-- C5 amended: on a successful token exchange whose parsed body is not JSON
null (on null, reading `data.access_token` throws and the callback answers
400 before metadata registration is attempted), the variant A callback's
response and final store state do not depend on the metadata API's response
at all — a non-2xx status or malformed body leaves the 200 HTML success
response intact, and a non-2xx metadata status is recorded in the log. -/
theorem callback_metadata_swallowed (store : Store)
    (code context scope : Option String) (tokenResp : FetchResponse)
    (data : Json) (metaResp metaResp2 : FetchResponse)
    (hcode : truthy code = true) (hctx : truthy context = true)
    (hbody : tokenResp.bodyParsed = some data)
    (hok : fetchOk tokenResp.status = true)
    (hnn : data ≠ Json.null) :
    (callbackA store code context scope tokenResp metaResp).resp
        = HResponse.html 200 successPageA
    ∧ (callbackA store code context scope tokenResp metaResp).resp
        = (callbackA store code context scope tokenResp metaResp2).resp
    ∧ (callbackA store code context scope tokenResp metaResp).store
        = (callbackA store code context scope tokenResp metaResp2).store
    ∧ (fetchOk metaResp.status = false →
        "❌ Metadata registration failed"
          ∈ (callbackA store code context scope tokenResp metaResp).log) := by
  have h1 := callbackA_success_shape store code context scope tokenResp data
    metaResp hcode hctx hbody hok hnn
  have h2 := callbackA_success_shape store code context scope tokenResp data
    metaResp2 hcode hctx hbody hok hnn
  refine ⟨by simp [h1], by simp [h1, h2], by simp [h1, h2], ?_⟩
  intro hm
  cases hmp : metaResp.bodyParsed <;>
    simp [h1, registerMetadata, hm, hmp]

theorem callback_metadata_swallowed_witness :
    (callbackA [] (some "code") (some "stores/abc123") none
        ⟨200, some (Json.obj [("access_token", Json.str "T")])⟩ ⟨500, none⟩).resp
        = HResponse.html 200 successPageA
    ∧ "❌ Metadata registration failed"
        ∈ (callbackA [] (some "code") (some "stores/abc123") none
            ⟨200, some (Json.obj [("access_token", Json.str "T")])⟩ ⟨500, none⟩).log := by
  have h := callback_metadata_swallowed [] (some "code") (some "stores/abc123") none
    ⟨200, some (Json.obj [("access_token", Json.str "T")])⟩
    (Json.obj [("access_token", Json.str "T")]) ⟨500, none⟩ ⟨204, some Json.null⟩
    rfl rfl rfl rfl (by intro h; exact Json.noConfusion h)
  exact ⟨h.1, h.2.2.2 (by decide)⟩

/-- C6 counterexample: variant B's `/api/install` performs no configuration
check — with every env var absent and both query params present, it issues a
redirect instead of an HTTP 500. -/
theorem install_no_config_check_cex :
    (Config.mk none none none).clientId = none
    ∧ isRedirect (installB (Config.mk none none none) (some "c") (some "s")) = true :=
  ⟨rfl, rfl⟩

/-- C6 amended: variant A answers HTTP 500 with the configuration-error page
(and no redirect) whenever the client identifier or public base URL is
absent; variant B has no such check, and with both query params present it
issues the redirect even with configuration absent (interpolating the string
"undefined"). -/
theorem install_config_required (cfg : Config) (context scope : Option String)
    (h : (truthy cfg.clientId && truthy cfg.appUrl) = false) :
    installA cfg context scope = HResponse.html 500 configErrorPage
    ∧ (truthy context = true → truthy scope = true →
        isRedirect (installB cfg context scope) = true) := by
  constructor
  · have hg : (!(truthy cfg.clientId) || !(truthy cfg.appUrl)) = true := by
      cases h1 : truthy cfg.clientId <;> cases h2 : truthy cfg.appUrl <;> simp_all
    simp [installA, hg]
  · intro h3 h4
    simp [installB, h3, h4, isRedirect]

theorem install_config_required_witness :
    installA (Config.mk none none none) (some "c") (some "s")
        = HResponse.html 500 configErrorPage
    ∧ isRedirect (installB (Config.mk none none none) (some "c") (some "s")) = true := by
  have h := install_config_required (Config.mk none none none) (some "c") (some "s")
    (by decide)
  exact ⟨h.1, h.2 (by decide) (by decide)⟩

/-- C7 counterexample: the redirect target never contains the raw derived
callback URL — `encodeURIComponent` percent-escapes its `:` and `/`
characters. Concretely, with configuration present and both params supplied,
the target is the authorize URL yet `"https://x/api/auth/callback"` is not a
substring of it. -/
theorem install_redirect_raw_callback_cex :
    installA (Config.mk (some "cid") (some "secret") (some "https://x"))
        (some "c") (some "s")
      = HResponse.redirect 302 (authUrlA "cid" "https://x" "c" "s")
    ∧ containsSub ("https://x/api/auth/callback").data
        (authUrlA "cid" "https://x" "c" "s").data = false :=
  ⟨rfl, by decide⟩

/-- C7 amended: with configuration present and non-empty context and scope,
both variants answer a 302 redirect whose target contains the URL-encoded
scope value, the URL-encoded context value, the URL-ENCODED form of the
callback URL derived from the base URL (base URL ++ "/api/auth/callback"),
the client identifier (variant A raw, variant B URL-encoded), and the
response type "code". -/
theorem install_redirect_contents (cfg : Config) (context scope : Option String)
    (h1 : truthy cfg.clientId = true) (h2 : truthy cfg.appUrl = true)
    (h3 : truthy context = true) (h4 : truthy scope = true) :
    (installA cfg context scope = HResponse.redirect 302
        (authUrlA (jsTemplate cfg.clientId) (jsTemplate cfg.appUrl)
          (jsTemplate context) (jsTemplate scope))
      ∧ strContains (authUrlA (jsTemplate cfg.clientId) (jsTemplate cfg.appUrl)
          (jsTemplate context) (jsTemplate scope))
          (encodeURIComponent (jsTemplate scope))
      ∧ strContains (authUrlA (jsTemplate cfg.clientId) (jsTemplate cfg.appUrl)
          (jsTemplate context) (jsTemplate scope))
          (encodeURIComponent (jsTemplate context))
      ∧ strContains (authUrlA (jsTemplate cfg.clientId) (jsTemplate cfg.appUrl)
          (jsTemplate context) (jsTemplate scope))
          (encodeURIComponent (jsTemplate cfg.appUrl ++ "/api/auth/callback"))
      ∧ strContains (authUrlA (jsTemplate cfg.clientId) (jsTemplate cfg.appUrl)
          (jsTemplate context) (jsTemplate scope))
          (jsTemplate cfg.clientId)
      ∧ strContains (authUrlA (jsTemplate cfg.clientId) (jsTemplate cfg.appUrl)
          (jsTemplate context) (jsTemplate scope)) "response_type=code")
    ∧ (installB cfg context scope = HResponse.redirect 302
        (authUrlB (jsTemplate cfg.clientId) (jsTemplate cfg.appUrl)
          (jsTemplate context) (jsTemplate scope))
      ∧ strContains (authUrlB (jsTemplate cfg.clientId) (jsTemplate cfg.appUrl)
          (jsTemplate context) (jsTemplate scope))
          (encodeURIComponent (jsTemplate scope))
      ∧ strContains (authUrlB (jsTemplate cfg.clientId) (jsTemplate cfg.appUrl)
          (jsTemplate context) (jsTemplate scope))
          (encodeURIComponent (jsTemplate context))
      ∧ strContains (authUrlB (jsTemplate cfg.clientId) (jsTemplate cfg.appUrl)
          (jsTemplate context) (jsTemplate scope))
          (encodeURIComponent (jsTemplate cfg.appUrl ++ "/api/auth/callback"))
      ∧ strContains (authUrlB (jsTemplate cfg.clientId) (jsTemplate cfg.appUrl)
          (jsTemplate context) (jsTemplate scope))
          (encodeURIComponent (jsTemplate cfg.clientId))
      ∧ strContains (authUrlB (jsTemplate cfg.clientId) (jsTemplate cfg.appUrl)
          (jsTemplate context) (jsTemplate scope)) "response_type=code") := by
  have hlitA : strContains "&response_type=code&context=" "response_type=code" :=
    ⟨['&'], "&context=".data, by decide⟩
  have hlitB : strContains "&response_type=code" "response_type=code" :=
    ⟨['&'], [], by decide⟩
  constructor
  · refine ⟨?_, ?_, ?_, ?_, ?_, ?_⟩
    · simp [installA, h1, h2, h3, h4]
    · exact strContains_append_left _ _ _ (strContains_append_left _ _ _
        (strContains_append_left _ _ _ (strContains_append_left _ _ _
          (strContains_append_right _ _ _ (strContains_self _)))))
    · exact strContains_append_right _ _ _ (strContains_self _)
    · exact strContains_append_left _ _ _ (strContains_append_left _ _ _
        (strContains_append_right _ _ _ (strContains_self _)))
    · exact strContains_append_left _ _ _ (strContains_append_left _ _ _
        (strContains_append_left _ _ _ (strContains_append_left _ _ _
          (strContains_append_left _ _ _ (strContains_append_left _ _ _
            (strContains_append_right _ _ _ (strContains_self _)))))))
    · exact strContains_append_left _ _ _
        (strContains_append_right _ _ _ hlitA)
  · refine ⟨?_, ?_, ?_, ?_, ?_, ?_⟩
    · simp [installB, h3, h4]
    · exact strContains_append_left _ _ _ (strContains_append_left _ _ _
        (strContains_append_left _ _ _ (strContains_append_left _ _ _
          (strContains_append_left _ _ _
            (strContains_append_right _ _ _ (strContains_self _))))))
    · exact strContains_append_left _ _ _ (strContains_append_left _ _ _
        (strContains_append_left _ _ _
          (strContains_append_right _ _ _ (strContains_self _))))
    · exact strContains_append_left _ _ _
        (strContains_append_right _ _ _ (strContains_self _))
    · exact strContains_append_left _ _ _ (strContains_append_left _ _ _
        (strContains_append_left _ _ _ (strContains_append_left _ _ _
          (strContains_append_left _ _ _ (strContains_append_left _ _ _
            (strContains_append_left _ _ _
              (strContains_append_right _ _ _ (strContains_self _))))))))
    · exact strContains_append_right _ _ _ hlitB

theorem install_redirect_contents_witness :
    truthy (some "cid") = true
    ∧ installA (Config.mk (some "cid") (some "secret") (some "https://x"))
        (some "c") (some "s")
        = HResponse.redirect 302 (authUrlA "cid" "https://x" "c" "s")
    ∧ strContains (authUrlA "cid" "https://x" "c" "s") (encodeURIComponent "s")
    ∧ strContains (authUrlA "cid" "https://x" "c" "s")
        (encodeURIComponent ("https://x" ++ "/api/auth/callback")) := by
  have h := install_redirect_contents
    (Config.mk (some "cid") (some "secret") (some "https://x"))
    (some "c") (some "s") (by decide) (by decide) (by decide) (by decide)
  exact ⟨by decide, h.1.1, h.1.2.1, h.1.2.2.2.1⟩

/-- C8: `/api/uninstall` always answers 200 `success:true` whether or not a
credential exists for the given identifier, and the operation is idempotent:
the second application returns the same response and leaves the same store
state as the first (variant B, which holds no state, included). -/
theorem uninstall_success_idempotent (store : Store) (body : Json) :
    (uninstallA store body).1
        = HResponse.json 200 (Json.obj [("success", Json.bool true)])
    ∧ (uninstallA (uninstallA store body).2 body).1 = (uninstallA store body).1
    ∧ (uninstallA (uninstallA store body).2 body).2 = (uninstallA store body).2
    ∧ uninstallB body = HResponse.json 200 (Json.obj [("success", Json.bool true)]) := by
  refine ⟨rfl, rfl, ?_, rfl⟩
  cases hsh : jsField body "store_hash" with
  | none => simp [uninstallA, hsh]
  | some v =>
    cases v with
    | str s =>
      by_cases hs : (s != "") = true
      · simp [uninstallA, hsh, hs, mapDelete_idem]
      · simp [uninstallA, hsh, hs]
    | null => simp [uninstallA, hsh]
    | bool b => simp [uninstallA, hsh]
    | num q => simp [uninstallA, hsh]
    | arr l => simp [uninstallA, hsh]
    | obj f => simp [uninstallA, hsh]

/-- C9: the connection-test and rate-quote handlers neither read nor write the
credential store: for any two store states they produce the same response,
and the state passes through unchanged. -/
theorem shipping_handlers_stateless (s1 s2 : Store) (method : String) (body : Json) :
    (connectionRouteA s1 method body).1 = (connectionRouteA s2 method body).1
    ∧ (connectionRouteA s1 method body).2 = s1
    ∧ (ratesRouteA s1 body).1 = (ratesRouteA s2 body).1
    ∧ (ratesRouteA s1 body).2 = s1 :=
  ⟨rfl, rfl, rfl, rfl⟩

/-- C10: `/api/uninstall` with store identifier `X` removes at most the entry
keyed `X`: every other identifier maps to exactly what it mapped to before. -/
theorem uninstall_frame (store : Store) (body : Json) (X k : String)
    (hX : jsField body "store_hash" = some (Json.str X)) (hk : k ≠ X) :
    mapGet (uninstallA store body).2 k = mapGet store k := by
  by_cases hs : (X != "") = true
  · simp [uninstallA, hX, hs, mapGet_mapDelete_ne store k X hk]
  · simp [uninstallA, hX, hs]

theorem uninstall_frame_witness :
    mapGet (uninstallA [("b", some Json.null)]
        (Json.obj [("store_hash", Json.str "a")])).2 "b"
      = mapGet [("b", some Json.null)] "b" :=
  uninstall_frame [("b", some Json.null)] (Json.obj [("store_hash", Json.str "a")])
    "a" "b" rfl (by decide)

end MyRover
